import Mathlib

/-!
Verification development for the smart-meter stock-management application
(src/smart-meter-stock-management-manager/app.py).

The application stores all records in a single pandas DataFrame (one CSV,
`dtype=str`); every role-specific Streamlit panel loads the frame, mutates
the rows it addresses, and writes the whole frame back.  We embed the frame
as a `List Row` (all fields strings, as in the CSV), and each button handler
as a pure function from the current store to `Except Err Store`.  Wall-clock
reads (`datetime.now()`) are passed in as explicit timestamp-string
parameters.  A rejected action (a Streamlit warning / non-offered control)
produces `Except.error`; the store is only rewritten on success, so an error
result models "record unchanged".

The error taxonomy (`NotFound`, `InvalidTransition`, `Unauthorized`,
`ValidationError`) labels the distinct rejection paths of the code: the role
routing at module top level (a panel is only reachable by its own role),
the explicit `st.warning` validation branches, the status branching inside
`city_ui`, and the installer-panel row filter.  Where the code folds two
checks into one filter (installer panel: status must contain "Approved" and
the installer name must match), the status check is labelled
`InvalidTransition` and the identity check `Unauthorized`.
-/

namespace StockApp

/-- Embeds Python `s.lower()` (ASCII case folding, which covers every string
the application compares). -/
def lowerStr (s : String) : String := ⟨s.data.map Char.toLower⟩

/-- Embeds Python `s.strip()`: drop leading and trailing whitespace. -/
def trimStr (s : String) : String :=
  ⟨((s.data.dropWhile Char.isWhitespace).reverse.dropWhile Char.isWhitespace).reverse⟩

/-- Embeds Python `s.startswith(pre)`. -/
def startsWithStr (s pre : String) : Bool := pre.data.isPrefixOf s.data

/-- Substring occurrence over character lists (helper for `containsSub`). -/
def containsAux (needle : List Char) : List Char → Bool
  | [] => needle.isEmpty
  | c :: rest => needle.isPrefixOf (c :: rest) || containsAux needle rest

/-- Embeds pandas `hay.str.contains(needle)` for the plain (non-regex)
needles the code uses. -/
def containsSub (hay needle : String) : Bool := containsAux needle.data hay.data

/-- Embeds `item_type.replace(' ', '_')[:10]`, the per-item suffix appended
to the base request id (app.py lines 435 and 504). -/
def ridSuffix (item : String) : String :=
  ⟨(item.data.map (fun c => if c == ' ' then '_' else c)).take 10⟩

/-- Embeds the id construction: `generate_request_id` produces
`f"{prefix}-{timestamp}"` (app.py line 381) and the submission loops append
`f"-{item_type.replace(' ', '_')[:10]}"`. -/
def mkRid (pre ts item : String) : String := pre ++ "-" ++ ts ++ "-" ++ ridSuffix item

/-- One row of the `stock_requests.csv` DataFrame (app.py lines 351-358);
every column is a string because the frame is loaded with `dtype=str`. -/
structure Row where
  date_Requested : String
  request_ID : String
  contractor_Name : String
  installer_Name : String
  meter_Type : String
  requested_Qty : String
  approved_Qty : String
  photo_Path : String
  status : String
  contractor_Notes : String
  city_Notes : String
  decline_Reason : String
  date_Approved : String
  date_Received : String
  manufacturer_Name : String
  batch_Number : String
  dispatch_Qty : String
  dispatch_Date : String
  dispatch_Note : String
  dispatch_Docs : String
  deriving DecidableEq, Repr

/-- The in-memory DataFrame: an ordered list of rows. -/
abbrev Store := List Row

/-- Rejection outcomes of an attempted operation (§7 taxonomy of the spec,
labelling the code's distinct refusal paths). -/
inductive Err where
  | notFound
  | invalidTransition
  | unauthorized
  | validationError
  deriving DecidableEq, Repr

/-- A fresh contractor-request row (app.py lines 436-457). -/
def contractorEntry (ts rid contractorName installerName itemType : String)
    (qty : Nat) (notes : String) : Row :=
  { date_Requested := ts
    request_ID := rid
    contractor_Name := contractorName
    installer_Name := installerName
    meter_Type := itemType
    requested_Qty := toString qty
    approved_Qty := ""
    photo_Path := ""
    status := "Pending Verification"
    contractor_Notes := notes
    city_Notes := ""
    decline_Reason := ""
    date_Approved := ""
    date_Received := ""
    manufacturer_Name := ""
    batch_Number := ""
    dispatch_Qty := ""
    dispatch_Date := ""
    dispatch_Note := ""
    dispatch_Docs := "" }

/-- A fresh manufacturer-dispatch row (app.py lines 505-526). -/
def manufacturerEntry (ts rid manuName itemType : String) (qty : Nat)
    (batchNum dispatchDate dispatchNote docPath : String) : Row :=
  { date_Requested := ts
    request_ID := rid
    contractor_Name := ""
    installer_Name := ""
    meter_Type := itemType
    requested_Qty := ""
    approved_Qty := ""
    photo_Path := ""
    status := "Pending City Approval (Manufacturer Delivery)"
    contractor_Notes := ""
    city_Notes := ""
    decline_Reason := ""
    date_Approved := ""
    date_Received := ""
    manufacturer_Name := manuName
    batch_Number := batchNum
    dispatch_Qty := toString qty
    dispatch_Date := dispatchDate
    dispatch_Note := dispatchNote
    dispatch_Docs := docPath }

/-- `contractor_ui` submit handler (app.py lines 424-461): installer name
required (Python falsiness: exactly the empty string), at least one positive
quantity, then one appended row per item type with positive quantity, all
stamped with the same submission timestamp. -/
def submitContractor (contractorName installerName : String) (meterQty keypadQty : Nat)
    (notes ts : String) (df : Store) : Except Err Store :=
  if installerName == "" then .error .validationError
  else if meterQty == 0 && keypadQty == 0 then .error .validationError
  else
    let entries := ([("DN15 Meter", meterQty), ("CIU Keypad", keypadQty)]).filterMap
      (fun p => if 0 < p.2 then
        some (contractorEntry ts (mkRid "REQ" ts p.1) contractorName installerName p.1 p.2 notes)
       else none)
    .ok (df ++ entries)

/-- `manufacturer_ui` submit handler (app.py lines 481-532): batch number
required non-blank after strip, at least one positive quantity, then one
appended row per product with positive quantity. -/
def submitManufacturer (manuName : String) (meterQty keypadQty : Nat)
    (batchNum dispatchDate dispatchNote docPath ts : String) (df : Store) :
    Except Err Store :=
  if trimStr batchNum == "" then .error .validationError
  else if meterQty == 0 && keypadQty == 0 then .error .validationError
  else
    let entries := ([("DN15 Meter", meterQty), ("CIU Keypad", keypadQty)]).filterMap
      (fun p => if 0 < p.2 then
        some (manufacturerEntry ts (mkRid "MANU" ts p.1) manuName p.1 p.2
          batchNum dispatchDate dispatchNote docPath)
       else none)
    .ok (df ++ entries)

/-- Field mutation of "Approve Manufacturer Dispatch" (app.py lines 666-678):
photo path written only when a photo was uploaded (empty string models "no
photo"). -/
def approveRowManu (qty : Nat) (cityNotes photoPath ts : String) (r : Row) : Row :=
  { r with approved_Qty := toString qty
           photo_Path := if photoPath == "" then r.photo_Path else photoPath
           status := "Approved / Issued"
           city_Notes := cityNotes
           date_Approved := ts }

/-- Field mutation of "Approve Contractor Request" (app.py lines 726-739):
the photo path column is always assigned (empty when no photo). -/
def approveRowContr (qty : Nat) (cityNotes photoPath ts : String) (r : Row) : Row :=
  { r with approved_Qty := toString qty
           photo_Path := photoPath
           status := "Approved / Issued"
           city_Notes := cityNotes
           date_Approved := ts }

/-- Field mutation of "Decline Manufacturer Dispatch" (app.py lines 697-701):
`reason = decline_reason or "No reason provided"` substitutes only for the
empty string (Python falsiness). -/
def declineRowManu (reason cityNotes : String) (r : Row) : Row :=
  { r with status := "Declined"
           decline_Reason := if reason == "" then "No reason provided" else reason
           city_Notes := cityNotes }

/-- Field mutation of "Decline Contractor Request" (app.py lines 743-745):
the reason is stored verbatim, even when empty. -/
def declineRowContr (reason : String) (r : Row) : Row :=
  { r with status := "Declined"
           decline_Reason := reason }

/-- Field mutation of "Mark as Received" (app.py lines 779-780). -/
def receiveRow (ts : String) (r : Row) : Row :=
  { r with status := "Received"
           date_Received := ts }

/-- `city_ui` approve action (app.py lines 597-750): the first row matching
the selected id decides the branch (`df[df["Request_ID"] == sel_id].iloc[0]`),
and the mutation is applied to every row whose `Request_ID` equals the
selected id (`df.loc[df["Request_ID"] == sel_id, ...]`).  A record whose
status is neither pending form is not actionable (lines 749-750). -/
def approveOp (selId : String) (qty : Nat) (cityNotes photoPath ts : String)
    (df : Store) : Except Err Store :=
  match df.find? (fun r => r.request_ID == selId) with
  | none => .error .notFound
  | some r =>
    if startsWithStr r.status "Pending City Approval" then
      .ok (df.map (fun x => if x.request_ID == selId then approveRowManu qty cityNotes photoPath ts x else x))
    else if r.status == "Pending Verification" then
      .ok (df.map (fun x => if x.request_ID == selId then approveRowContr qty cityNotes photoPath ts x else x))
    else .error .invalidTransition

/-- `city_ui` decline action, same row addressing as `approveOp`. -/
def declineOp (selId reason cityNotes : String) (df : Store) : Except Err Store :=
  match df.find? (fun r => r.request_ID == selId) with
  | none => .error .notFound
  | some r =>
    if startsWithStr r.status "Pending City Approval" then
      .ok (df.map (fun x => if x.request_ID == selId then declineRowManu reason cityNotes x else x))
    else if r.status == "Pending Verification" then
      .ok (df.map (fun x => if x.request_ID == selId then declineRowContr reason x else x))
    else .error .invalidTransition

/-- `installer_ui` "Mark as Received" (app.py lines 763-783).  The identity
filter `df["Installer_Name"].str.lower() == installer` (with
`.strip().lower()` applied to the logged-in name) is guarded by
`df["Installer_Name"].notna().any()`: empty CSV fields read back as NaN, so
the filter runs only when some row carries a NON-EMPTY installer name, and
is skipped entirely otherwise (`approved = df.copy()`); under the filter a
NaN (empty) installer name never matches.  An id is offered for selection
when some row carries it that passes the (possibly skipped) identity filter
and whose status contains "Approved"; the mutation then hits every row with
that id.  The code folds these conditions into one row filter; the taxonomy
splits the refusal: wrong status ⇒ `InvalidTransition`, right status but not
offered ⇒ `Unauthorized`. -/
def markReceivedOp (actorName selId ts : String) (df : Store) : Except Err Store :=
  let installer := lowerStr (trimStr actorName)
  let nameFilterOn := df.any (fun r => !(r.installer_Name == ""))
  let matching := df.filter (fun r => r.request_ID == selId)
  if matching.isEmpty then .error .notFound
  else if matching.any (fun r => containsSub r.status "Approved" &&
      (!nameFilterOn || (!(r.installer_Name == "") && (lowerStr r.installer_Name == installer)))) then
    .ok (df.map (fun x => if x.request_ID == selId then receiveRow ts x else x))
  else if matching.any (fun r => containsSub r.status "Approved") then .error .unauthorized
  else .error .invalidTransition

/-- Replace the first row satisfying `p` (pandas `df.at[idx[0], ...]`
semantics of the manager edit form). -/
def editFirst (p : Row → Bool) (f : Row → Row) : Store → Store
  | [] => []
  | r :: rest => if p r then f r :: rest else r :: editFirst p f rest

/-- Field rewrite of the manager edit form (app.py lines 845-862):
`Date_Approved` is backfilled when the new status is "Approved / Issued" and
the field was blank. -/
def managerRowEdit (newContractor newInstaller newMeterType newRequestedQty
    newApprovedQty newStatus newContractorNotes newCityNotes newManufacturer
    newBatch newDispatchQty newDispatchDate ts : String) (r : Row) : Row :=
  let r' := { r with contractor_Name := newContractor
                     installer_Name := newInstaller
                     meter_Type := newMeterType
                     requested_Qty := newRequestedQty
                     approved_Qty := newApprovedQty
                     status := newStatus
                     contractor_Notes := newContractorNotes
                     city_Notes := newCityNotes
                     manufacturer_Name := newManufacturer
                     batch_Number := newBatch
                     dispatch_Qty := newDispatchQty
                     dispatch_Date := newDispatchDate }
  if newStatus == "Approved / Issued" && r'.date_Approved == "" then
    { r' with date_Approved := ts }
  else r'

/-- The values the manager "Status" selectbox offers (app.py lines 812-814):
the distinct non-null statuses present in the frame, or a fixed five-item
default list when the frame holds none.  `sorted` only affects display order
and the pre-selected index, not which statuses are selectable, so it is
omitted. -/
def statusOptions (df : Store) : List String :=
  let opts := ((df.map (fun r => r.status)).filter (fun st => !(st == ""))).dedup
  if opts.isEmpty then
    ["Pending Verification", "Approved / Issued", "Declined", "Received",
     "Pending City Approval (Manufacturer Delivery)"]
  else opts

/-- `manager_ui` edit form (app.py lines 836-865): the manager rewrites a
field set of the FIRST row with the selected id; `Status` may only take a
value the selectbox offers (`statusOptions`, enforced at render time — a
status outside it cannot be submitted, modelled as `ValidationError`). -/
def managerEditOp (selId newContractor newInstaller newMeterType newRequestedQty
    newApprovedQty newStatus newContractorNotes newCityNotes newManufacturer
    newBatch newDispatchQty newDispatchDate ts : String) (df : Store) :
    Except Err Store :=
  if (statusOptions df).contains newStatus then
    if df.any (fun r => r.request_ID == selId) then
      .ok (editFirst (fun r => r.request_ID == selId)
        (managerRowEdit newContractor newInstaller newMeterType newRequestedQty
          newApprovedQty newStatus newContractorNotes newCityNotes newManufacturer
          newBatch newDispatchQty newDispatchDate ts) df)
    else .error .notFound
  else .error .validationError

/-- The operations a logged-in user can trigger, with their payloads.  Each
constructor corresponds to one button handler of app.py. -/
inductive Op where
  | submitContr (contractorName installerName : String) (meterQty keypadQty : Nat)
      (notes ts : String)
  | submitManu (manuName : String) (meterQty keypadQty : Nat)
      (batchNum dispatchDate dispatchNote docPath ts : String)
  | approve (selId : String) (qty : Nat) (cityNotes photoPath ts : String)
  | decline (selId reason cityNotes : String)
  | markReceived (actorName selId ts : String)
  | managerEdit (selId newContractor newInstaller newMeterType newRequestedQty
      newApprovedQty newStatus newContractorNotes newCityNotes newManufacturer
      newBatch newDispatchQty newDispatchDate ts : String)

/-- The single role whose panel offers each operation (module-level routing,
app.py lines 923-942). -/
def requiredRole : Op → String
  | .submitContr .. => "contractor"
  | .submitManu .. => "manufacturer"
  | .approve .. => "city"
  | .decline .. => "city"
  | .markReceived .. => "installer"
  | .managerEdit .. => "manager"

/-- Top-level dispatch: the routing renders only the panel of the session
role, so an operation invoked under any other role is refused without
touching the store (`Unauthorized` in the spec taxonomy). -/
def apply (role : String) (op : Op) (df : Store) : Except Err Store :=
  match op with
  | .submitContr cn inn mq kq notes ts =>
    if role == "contractor" then submitContractor cn inn mq kq notes ts df
    else .error .unauthorized
  | .submitManu mn mq kq batch ddate dnote doc ts =>
    if role == "manufacturer" then submitManufacturer mn mq kq batch ddate dnote doc ts df
    else .error .unauthorized
  | .approve selId qty notes photo ts =>
    if role == "city" then approveOp selId qty notes photo ts df
    else .error .unauthorized
  | .decline selId reason notes =>
    if role == "city" then declineOp selId reason notes df
    else .error .unauthorized
  | .markReceived actor selId ts =>
    if role == "installer" then markReceivedOp actor selId ts df
    else .error .unauthorized
  | .managerEdit selId a b c d e f g h i j k l ts =>
    if role == "manager" then managerEditOp selId a b c d e f g h i j k l ts df
    else .error .unauthorized

/-- The store the caller holds after an attempt: rewritten on success, kept
as-is on any refusal (the code only calls `save_data` on the success paths). -/
def run (role : String) (op : Op) (df : Store) : Store :=
  match apply role op df with
  | .ok s => s
  | .error _ => df

/-- Run a sequence of attempted operations, each tagged with the session
role that issues it. -/
def runOps : List (String × Op) → Store → Store
  | [], df => df
  | p :: rest, df => runOps rest (run p.1 p.2 df)

/-- The timestamp a submission operation stamps into its ids (none for
non-submission operations). -/
def subTs : Op → Option String
  | .submitContr _ _ _ _ _ ts => some ts
  | .submitManu _ _ _ _ _ _ _ ts => some ts
  | _ => none

/-- The request ids an attempted operation appends to the store (empty for
refused submissions and for all non-submission operations, which never touch
the `Request_ID` column). -/
def idsOf (role : String) (op : Op) : List String :=
  match op with
  | .submitContr _ inn mq kq _ ts =>
    if role == "contractor" then
      if inn == "" then []
      else if mq == 0 && kq == 0 then []
      else ([("DN15 Meter", mq), ("CIU Keypad", kq)]).filterMap
        (fun p => if 0 < p.2 then some (mkRid "REQ" ts p.1) else none)
    else []
  | .submitManu _ mq kq batch _ _ _ ts =>
    if role == "manufacturer" then
      if trimStr batch == "" then []
      else if mq == 0 && kq == 0 then []
      else ([("DN15 Meter", mq), ("CIU Keypad", kq)]).filterMap
        (fun p => if 0 < p.2 then some (mkRid "MANU" ts p.1) else none)
    else []
  | _ => []

/-- All request ids held in the store, in row order. -/
def storeIds (df : Store) : List String := df.map (fun r => r.request_ID)

/-- Concatenated ids appended by a sequence of attempted operations. -/
def allIds : List (String × Op) → List String
  | [] => []
  | p :: rest => idsOf p.1 p.2 ++ allIds rest

deriving instance DecidableEq for Except

/-! Concrete scenario used by several counterexamples and witnesses: a
contractor request submitted at second `20250101010101`. -/

/-- Timestamp of the scenario submission. -/
def tsSub : String := "20250101010101"

/-- The scenario contractor submission: one DN15 meter for installer Bob. -/
def opSub : Op := .submitContr "Deezlo" "Bob" 1 0 "" tsSub

/-- The id the scenario submission generates. -/
def ridSub : String := "REQ-20250101010101-DN15_Meter"

/-- Store after the scenario submission. -/
def dfSub : Store := run "contractor" opSub []

/-- The single row of `dfSub`. -/
def rowSub : Row := contractorEntry tsSub (mkRid "REQ" tsSub "DN15 Meter") "Deezlo" "Bob" "DN15 Meter" 1 ""

/-- Store after the city declines the scenario request with reason "bad". -/
def dfDeclined : Store := run "city" (.decline ridSub "bad" "") dfSub

/-- Two-record store from one submission listing both item types (distinct
ids sharing the base prefix). -/
def dfTwo : Store := run "contractor" (.submitContr "Deezlo" "Bob" 1 1 "" tsSub) []

/-- Store after the city declines the meter record of `dfTwo`; the keypad
record still carries "Pending Verification". -/
def dfTwoDeclined : Store := run "city" (.decline ridSub "bad" "") dfTwo

/-- Store after the manager edits the declined meter record of
`dfTwoDeclined` back to "Pending Verification" — a status the selectbox
offers, because the keypad record still carries it. -/
def dfTwoReopened : Store :=
  run "manager" (.managerEdit ridSub "Deezlo" "Bob" "DN15 Meter" "1" "" "Pending Verification" "" "" "" "" "" "" "20250102020202") dfTwoDeclined

/-- Store after the city approves the scenario request for quantity 8. -/
def dfApproved : Store := run "city" (.approve ridSub 8 "" "" "20250103030303") dfSub

/-- The single row of `dfApproved`. -/
def rowApproved : Row := approveRowContr 8 "" "" "20250103030303" rowSub

/-- Two-row store sharing one request id (a duplicate produced by two
same-second submissions), used to demonstrate mass mutation by id. -/
def dfDup : Store := run "contractor" opSub (run "contractor" opSub [])

/-- Store after declining the duplicated id once. -/
def dfDupDeclined : Store := run "city" (.decline ridSub "dup" "") dfDup

/-- Id generated by the scenario manufacturer dispatch. -/
def ridManu : String := "MANU-20250101010101-DN15_Meter"

/-- Store after a manufacturer dispatch of 50 meters, batch B100. -/
def dfManu : Store := run "manufacturer" (.submitManu "manufacturer1" 50 0 "B100" "2025-01-01" "" "" tsSub) []

/-- The single row of `dfManu`. -/
def rowManu : Row := manufacturerEntry tsSub (mkRid "MANU" tsSub "DN15 Meter") "manufacturer1" "DN15 Meter" 50 "B100" "2025-01-01" "" ""

/-- Store after the city approves the scenario manufacturer dispatch; its
sole row is "Approved / Issued" with an empty installer name. -/
def dfManuApproved : Store := run "city" (.approve ridManu 50 "" "" "20250106060606") dfManu

/-- Operation list with distinct submission timestamps, used to witness the
amended uniqueness claim. -/
def opsDistinct : List (String × Op) :=
  [("contractor", opSub),
   ("contractor", .submitContr "Nimba" "Ann" 2 3 "" "20250101010102"),
   ("manufacturer", .submitManu "manufacturer1" 5 0 "B100" "2025-01-01" "" "" "20250101010103")]

/-!  Helper lemmas about the string embedding and the operations. -/

theorem isPrefixOf_self_append (l m : List Char) : l.isPrefixOf (l ++ m) = true := by
  rw [List.isPrefixOf_iff_prefix]
  exact List.prefix_append l m

theorem mkRid_assoc (pre ts item : String) :
    mkRid pre ts item = (pre ++ "-" ++ ts) ++ ("-" ++ ridSuffix item) := by
  apply String.ext
  simp [mkRid, String.data_append, List.append_assoc]

theorem startsWithStr_mkRid (pre ts item : String) :
    startsWithStr (mkRid pre ts item) (pre ++ "-" ++ ts) = true := by
  rw [mkRid_assoc]
  unfold startsWithStr
  rw [String.data_append]
  exact isPrefixOf_self_append _ _

theorem run_of_error (role : String) (op : Op) (df : Store) (e : Err)
    (h : apply role op df = .error e) : run role op df = df := by
  unfold run
  rw [h]

/-- Claim C9: a contractor submission with an empty installer name fails with
`ValidationError` and creates no record, regardless of the requested
quantities. -/
theorem contractor_empty_installer_rejected (cn : String) (mq kq : Nat)
    (notes ts : String) (df : Store) :
    apply "contractor" (.submitContr cn "" mq kq notes ts) df = .error .validationError ∧
    run "contractor" (.submitContr cn "" mq kq notes ts) df = df := by
  have h : apply "contractor" (.submitContr cn "" mq kq notes ts) df = .error .validationError := by
    simp [apply, submitContractor]
  exact ⟨h, run_of_error _ _ _ _ h⟩

/-- Claim C6: invoking any operation under a session role other than the one
whose panel offers it is refused with `Unauthorized`, leaving the store
unchanged. -/
theorem wrong_role_unauthorized (role : String) (op : Op) (df : Store)
    (h : role ≠ requiredRole op) :
    apply role op df = .error .unauthorized ∧ run role op df = df := by
  have happ : apply role op df = .error .unauthorized := by
    cases op <;> (simp only [requiredRole] at h; simp [apply, beq_iff_eq, h])
  exact ⟨happ, run_of_error _ _ _ _ happ⟩

/-- Claim C6 witness: a contractor attempting `Approve` is rejected. -/
theorem wrong_role_unauthorized_witness :
    apply "contractor" (.approve ridSub 1 "" "" tsSub) dfSub = .error .unauthorized ∧
    run "contractor" (.approve ridSub 1 "" "" tsSub) dfSub = dfSub :=
  wrong_role_unauthorized "contractor" (.approve ridSub 1 "" "" tsSub) dfSub (by decide)

/-- Claim C7: a contractor submission listing both item types with positive
quantities creates exactly one record per item type; the two records share
the submission timestamp as `Date_Requested` and their ids share the base
prefix `REQ-<timestamp>`. -/
theorem contractor_multi_item_rows (df : Store) (cn inn : String) (mq kq : Nat)
    (notes ts : String) (hin : inn ≠ "") (hm : 0 < mq) (hk : 0 < kq) :
    apply "contractor" (.submitContr cn inn mq kq notes ts) df =
      .ok (df ++ [contractorEntry ts (mkRid "REQ" ts "DN15 Meter") cn inn "DN15 Meter" mq notes,
                  contractorEntry ts (mkRid "REQ" ts "CIU Keypad") cn inn "CIU Keypad" kq notes]) ∧
    (contractorEntry ts (mkRid "REQ" ts "DN15 Meter") cn inn "DN15 Meter" mq notes).date_Requested = ts ∧
    (contractorEntry ts (mkRid "REQ" ts "CIU Keypad") cn inn "CIU Keypad" kq notes).date_Requested = ts ∧
    startsWithStr (mkRid "REQ" ts "DN15 Meter") ("REQ" ++ "-" ++ ts) = true ∧
    startsWithStr (mkRid "REQ" ts "CIU Keypad") ("REQ" ++ "-" ++ ts) = true := by
  refine ⟨?_, rfl, rfl, startsWithStr_mkRid _ _ _, startsWithStr_mkRid _ _ _⟩
  have hm' : mq ≠ 0 := Nat.pos_iff_ne_zero.mp hm
  simp [apply, submitContractor, beq_iff_eq, hin, hm', List.filterMap_cons, hm, hk]

/-- Claim C7 witness: a submission with one meter and two keypads creates the
two expected rows. -/
theorem contractor_multi_item_rows_witness :
    apply "contractor" (.submitContr "Deezlo" "Bob" 1 2 "" tsSub) [] =
      .ok [contractorEntry tsSub (mkRid "REQ" tsSub "DN15 Meter") "Deezlo" "Bob" "DN15 Meter" 1 "",
           contractorEntry tsSub (mkRid "REQ" tsSub "CIU Keypad") "Deezlo" "Bob" "CIU Keypad" 2 ""] :=
  (contractor_multi_item_rows [] "Deezlo" "Bob" 1 2 "" tsSub (by decide) (by decide) (by decide)).1

/-- Claim C8: a manufacturer dispatch submission is rejected with
`ValidationError` (creating nothing) when the batch number is blank after
stripping or every quantity is zero; otherwise it appends at least one row,
every appended row carrying status "Pending City Approval (Manufacturer
Delivery)". -/
theorem manufacturer_submit_validation (df : Store) (mn : String) (mq kq : Nat)
    (batch ddate dnote doc ts : String) :
    ((trimStr batch = "" ∨ (mq = 0 ∧ kq = 0)) →
      apply "manufacturer" (.submitManu mn mq kq batch ddate dnote doc ts) df = .error .validationError ∧
      run "manufacturer" (.submitManu mn mq kq batch ddate dnote doc ts) df = df) ∧
    (trimStr batch ≠ "" → (0 < mq ∨ 0 < kq) →
      ∃ es, es ≠ [] ∧
        apply "manufacturer" (.submitManu mn mq kq batch ddate dnote doc ts) df = .ok (df ++ es) ∧
        ∀ x ∈ es, x.status = "Pending City Approval (Manufacturer Delivery)") := by
  constructor
  · intro h
    have happ : apply "manufacturer" (.submitManu mn mq kq batch ddate dnote doc ts) df = .error .validationError := by
      rcases h with hb | ⟨h1, h2⟩
      · simp [apply, submitManufacturer, beq_iff_eq, hb]
      · by_cases hb : trimStr batch = "" <;> simp [apply, submitManufacturer, beq_iff_eq, hb, h1, h2]
    exact ⟨happ, run_of_error _ _ _ _ happ⟩
  · intro hb hq
    by_cases h1 : 0 < mq <;> by_cases h2 : 0 < kq
    · refine ⟨[manufacturerEntry ts (mkRid "MANU" ts "DN15 Meter") mn "DN15 Meter" mq batch ddate dnote doc,
               manufacturerEntry ts (mkRid "MANU" ts "CIU Keypad") mn "CIU Keypad" kq batch ddate dnote doc],
              by simp, ?_, ?_⟩
      · have h1' : mq ≠ 0 := Nat.pos_iff_ne_zero.mp h1
        simp [apply, submitManufacturer, beq_iff_eq, hb, h1', List.filterMap_cons, h1, h2]
      · intro x hx
        simp only [List.mem_cons, List.not_mem_nil, or_false] at hx
        rcases hx with rfl | rfl <;> rfl
    · refine ⟨[manufacturerEntry ts (mkRid "MANU" ts "DN15 Meter") mn "DN15 Meter" mq batch ddate dnote doc],
              by simp, ?_, ?_⟩
      · have h1' : mq ≠ 0 := Nat.pos_iff_ne_zero.mp h1
        simp [apply, submitManufacturer, beq_iff_eq, hb, h1', List.filterMap_cons, h1, h2]
      · intro x hx
        simp only [List.mem_cons, List.not_mem_nil, or_false] at hx
        rcases hx with rfl
        rfl
    · refine ⟨[manufacturerEntry ts (mkRid "MANU" ts "CIU Keypad") mn "CIU Keypad" kq batch ddate dnote doc],
              by simp, ?_, ?_⟩
      · have h2' : kq ≠ 0 := Nat.pos_iff_ne_zero.mp h2
        simp [apply, submitManufacturer, beq_iff_eq, hb, h2', List.filterMap_cons, h1, h2]
      · intro x hx
        simp only [List.mem_cons, List.not_mem_nil, or_false] at hx
        rcases hx with rfl
        rfl
    · rcases hq with h | h
      · exact absurd h h1
      · exact absurd h h2

/-- A member of a masked row update that matches the selected id must be the
image of a matching source row. -/
theorem mem_update_matching {df : Store} {selId : String} {g : Row → Row} {x : Row}
    (hx : x ∈ df.map (fun y => if y.request_ID == selId then g y else y))
    (hid : x.request_ID = selId) :
    ∃ y ∈ df, y.request_ID = selId ∧ x = g y := by
  obtain ⟨y, hy, hfx⟩ := List.mem_map.mp hx
  by_cases hm : (y.request_ID == selId) = true
  · exact ⟨y, hy, by simpa [beq_iff_eq] using hm, by rw [← hfx, if_pos hm]⟩
  · exfalso
    rw [if_neg hm] at hfx
    subst hfx
    exact hm (by simp [beq_iff_eq, hid])

/-- Claim C1 (amended): `Approve` enforces no upper bound on the approved
quantity — for a record pending verification or pending city approval, any
supplied quantity (including one exceeding the offered quantity) is accepted,
and every row carrying the id moves to "Approved / Issued" with the supplied
quantity recorded. -/
theorem approve_no_quantity_bound (df : Store) (r : Row) (selId : String) (qty : Nat)
    (cityNotes photoPath ts : String)
    (hfind : df.find? (fun x => x.request_ID == selId) = some r)
    (hst : startsWithStr r.status "Pending City Approval" = true ∨ r.status = "Pending Verification") :
    ∃ s, apply "city" (.approve selId qty cityNotes photoPath ts) df = .ok s ∧
      ∀ x ∈ s, x.request_ID = selId →
        x.status = "Approved / Issued" ∧ x.approved_Qty = toString qty := by
  have hrole : apply "city" (.approve selId qty cityNotes photoPath ts) df =
      approveOp selId qty cityNotes photoPath ts df := by
    simp [apply]
  rw [hrole]
  rcases hst with h | h
  · refine ⟨_, by simp only [approveOp, hfind]; rw [if_pos h], ?_⟩
    intro x hx hid
    obtain ⟨y, _, _, rfl⟩ := mem_update_matching hx hid
    exact ⟨rfl, rfl⟩
  · have hn : ¬ (startsWithStr r.status "Pending City Approval" = true) := by
      rw [h]; decide
    have hp : (r.status == "Pending Verification") = true := by
      rw [h]; decide
    refine ⟨_, by simp only [approveOp, hfind]; rw [if_neg hn, if_pos hp], ?_⟩
    intro x hx hid
    obtain ⟨y, _, _, rfl⟩ := mem_update_matching hx hid
    exact ⟨rfl, rfl⟩

/-- Claim C1 counterexample: the request offered quantity 1, yet approving
quantity 999 is not a `ValidationError` — it succeeds and records 999. -/
theorem approve_over_quantity_not_rejected :
    dfSub = [rowSub] ∧ rowSub.requested_Qty = "1" ∧
    apply "city" (.approve ridSub 999 "" "" "20250103030303") dfSub ≠ .error .validationError ∧
    (run "city" (.approve ridSub 999 "" "" "20250103030303") dfSub).map
      (fun r => (r.status, r.approved_Qty)) = [("Approved / Issued", "999")] := by
  decide

/-- Claim C1 witness: the amended theorem applied to the concrete
over-approval scenario. -/
theorem approve_no_quantity_bound_witness :
    apply "city" (.approve ridSub 999 "" "" "20250103030303") dfSub ≠ .error .validationError := by
  obtain ⟨s, hs, _⟩ := approve_no_quantity_bound dfSub rowSub ridSub 999 "" "" "20250103030303"
    (by decide) (Or.inr (by decide))
  intro hc
  rw [hs] at hc
  exact Except.noConfusion hc

/-- Claim C2 (amended): `Decline` never validates the reason.  On a record
pending city approval it succeeds for every reason, storing
"No reason provided" in place of the empty string; on a record pending
verification it succeeds and stores the reason verbatim, even when empty. -/
theorem decline_stores_reason_unvalidated (df : Store) (r : Row) (selId reason cityNotes : String)
    (hfind : df.find? (fun x => x.request_ID == selId) = some r) :
    (startsWithStr r.status "Pending City Approval" = true →
      ∃ s, apply "city" (.decline selId reason cityNotes) df = .ok s ∧
        ∀ x ∈ s, x.request_ID = selId → x.status = "Declined" ∧
          x.decline_Reason = (if reason == "" then "No reason provided" else reason)) ∧
    (r.status = "Pending Verification" →
      ∃ s, apply "city" (.decline selId reason cityNotes) df = .ok s ∧
        ∀ x ∈ s, x.request_ID = selId → x.status = "Declined" ∧ x.decline_Reason = reason) := by
  have hrole : apply "city" (.decline selId reason cityNotes) df = declineOp selId reason cityNotes df := by
    simp [apply]
  constructor
  · intro h
    rw [hrole]
    refine ⟨_, by simp only [declineOp, hfind]; rw [if_pos h], ?_⟩
    intro x hx hid
    obtain ⟨y, _, _, rfl⟩ := mem_update_matching hx hid
    exact ⟨rfl, rfl⟩
  · intro h
    have hn : ¬ (startsWithStr r.status "Pending City Approval" = true) := by
      rw [h]; decide
    have hp : (r.status == "Pending Verification") = true := by
      rw [h]; decide
    rw [hrole]
    refine ⟨_, by simp only [declineOp, hfind]; rw [if_neg hn, if_pos hp], ?_⟩
    intro x hx hid
    obtain ⟨y, _, _, rfl⟩ := mem_update_matching hx hid
    exact ⟨rfl, rfl⟩

/-- Claim C2 counterexample: declining a pending contractor request with an
empty reason is not a `ValidationError` — the record is declined with an
empty stored reason. -/
theorem decline_empty_reason_not_rejected :
    apply "city" (.decline ridSub "" "") dfSub ≠ .error .validationError ∧
    (run "city" (.decline ridSub "" "") dfSub).map (fun r => (r.status, r.decline_Reason)) =
      [("Declined", "")] := by
  decide

/-- Claim C2 witness: the amended theorem applied to the concrete
manufacturer-dispatch scenario with an empty reason. -/
theorem decline_stores_reason_unvalidated_witness :
    apply "city" (.decline ridManu "" "") dfManu ≠ .error .validationError := by
  obtain ⟨s, hs, _⟩ := (decline_stores_reason_unvalidated dfManu rowManu ridManu "" ""
    (by decide)).1 (by decide)
  intro hc
  rw [hs] at hc
  exact Except.noConfusion hc

/-- Claim C8 witness: a blank batch number is rejected; batch "B100" with 50
meters is accepted into the pending-city-approval status. -/
theorem manufacturer_submit_validation_witness :
    (apply "manufacturer" (.submitManu "manufacturer1" 50 0 "  " "2025-01-01" "" "" tsSub) [] = .error .validationError) ∧
    (∃ es, es ≠ [] ∧
      apply "manufacturer" (.submitManu "manufacturer1" 50 0 "B100" "2025-01-01" "" "" tsSub) [] = .ok ([] ++ es) ∧
      ∀ x ∈ es, x.status = "Pending City Approval (Manufacturer Delivery)") :=
  ⟨((manufacturer_submit_validation [] "manufacturer1" 50 0 "  " "2025-01-01" "" "" tsSub).1
      (Or.inl (by decide))).1,
   (manufacturer_submit_validation [] "manufacturer1" 50 0 "B100" "2025-01-01" "" "" tsSub).2
      (by decide) (Or.inl (by decide))⟩

theorem apply_city_approve (selId : String) (qty : Nat) (notes photo ts : String) (df : Store) :
    apply "city" (.approve selId qty notes photo ts) df = approveOp selId qty notes photo ts df := by
  simp [apply]

theorem apply_city_decline (selId reason notes : String) (df : Store) :
    apply "city" (.decline selId reason notes) df = declineOp selId reason notes df := by
  simp [apply]

theorem apply_installer_mark (actor selId ts : String) (df : Store) :
    apply "installer" (.markReceived actor selId ts) df = markReceivedOp actor selId ts df := by
  simp [apply]

/-- Claim C4 (amended): the installer identity gate applies only when some
stored row carries a non-empty installer name.  Part one: for a record in
"Approved / Issued" (sole carrier of its id) whose installer name is
non-empty, `MarkReceived` succeeds exactly when the caller identity equals
that name case-insensitively, setting status "Received" and the received
date; any other identity is refused with `Unauthorized` and the store is
unchanged.  Part two: when every stored row's installer name is empty (a
store holding only manufacturer dispatches), the identity filter is skipped
and the call succeeds for EVERY installer identity.  (`trimStr actor =
actor` records that session names carry no surrounding whitespace, as in
the credential table.) -/
theorem markReceived_identity_gate (df : Store) (r : Row) (actor selId ts : String)
    (hfilter : df.filter (fun x => x.request_ID == selId) = [r])
    (hst : r.status = "Approved / Issued")
    (htrim : trimStr actor = actor) :
    (r.installer_Name ≠ "" →
      (lowerStr actor = lowerStr r.installer_Name →
        apply "installer" (.markReceived actor selId ts) df =
          .ok (df.map (fun x => if x.request_ID == selId then receiveRow ts x else x)) ∧
        (receiveRow ts r).status = "Received" ∧ (receiveRow ts r).date_Received = ts) ∧
      (lowerStr actor ≠ lowerStr r.installer_Name →
        apply "installer" (.markReceived actor selId ts) df = .error .unauthorized ∧
        run "installer" (.markReceived actor selId ts) df = df)) ∧
    ((∀ x ∈ df, x.installer_Name = "") →
      apply "installer" (.markReceived actor selId ts) df =
        .ok (df.map (fun x => if x.request_ID == selId then receiveRow ts x else x))) := by
  have hA : containsSub "Approved / Issued" "Approved" = true := by decide
  have hrmem : r ∈ df := by
    have hmem : r ∈ df.filter (fun x => x.request_ID == selId) := by
      rw [hfilter]
      exact List.mem_singleton.mpr rfl
    exact (List.mem_filter.mp hmem).1
  constructor
  · intro hinst
    have hinstb : (r.installer_Name == "") = false := by
      rw [beq_eq_false_iff_ne]
      exact hinst
    have hguard : (df.any (fun x => !(x.installer_Name == ""))) = true :=
      List.any_eq_true.mpr ⟨r, hrmem, by simp [hinstb]⟩
    constructor
    · intro heq
      refine ⟨?_, rfl, rfl⟩
      rw [apply_installer_mark]
      have hc1 : (containsSub r.status "Approved" &&
          (!(df.any (fun x => !(x.installer_Name == ""))) ||
            (!(r.installer_Name == "") && (lowerStr r.installer_Name == lowerStr (trimStr actor))))) = true := by
        rw [hst, htrim, hguard, hinstb, ← heq]
        simp [hA]
      simp only [markReceivedOp, hfilter]
      simp [hc1]
    · intro hne
      have hb : (lowerStr r.installer_Name == lowerStr (trimStr actor)) = false := by
        rw [htrim, beq_eq_false_iff_ne]
        exact fun hcd => hne hcd.symm
      have hc1 : (containsSub r.status "Approved" &&
          (!(df.any (fun x => !(x.installer_Name == ""))) ||
            (!(r.installer_Name == "") && (lowerStr r.installer_Name == lowerStr (trimStr actor))))) = false := by
        rw [hguard, hb]
        simp
      have hc2 : containsSub r.status "Approved" = true := by
        rw [hst]
        exact hA
      have happ : apply "installer" (.markReceived actor selId ts) df = .error .unauthorized := by
        rw [apply_installer_mark]
        simp only [markReceivedOp, hfilter]
        have hany1 : (([r] : Store).any
            (fun x => containsSub x.status "Approved" &&
              (!(df.any (fun y => !(y.installer_Name == ""))) ||
                (!(x.installer_Name == "") && (lowerStr x.installer_Name == lowerStr (trimStr actor)))))) = false := by
          simp only [List.any_cons, List.any_nil, Bool.or_false]
          exact hc1
        have hany2 : (([r] : Store).any (fun x => containsSub x.status "Approved")) = true := by
          simp only [List.any_cons, List.any_nil, Bool.or_false]
          exact hc2
        rw [if_neg (by simp), if_neg (by simp [hany1]), if_pos hany2]
      exact ⟨happ, run_of_error _ _ _ _ happ⟩
  · intro hall
    have hguard0 : (df.any (fun x => !(x.installer_Name == ""))) = false := by
      rw [List.any_eq_false]
      intro x hx
      simp [hall x hx]
    rw [apply_installer_mark]
    have hc1 : (containsSub r.status "Approved" &&
        (!(df.any (fun x => !(x.installer_Name == ""))) ||
          (!(r.installer_Name == "") && (lowerStr r.installer_Name == lowerStr (trimStr actor))))) = true := by
      rw [hst, hguard0]
      simp [hA]
    simp only [markReceivedOp, hfilter]
    simp [hc1]

/-- Claim C4 counterexample: the approved manufacturer dispatch carries an
empty installer name, so the store has no non-empty installer name and the
code skips the identity filter — installer "installer1", whose identity does
not match the record's installer name, nevertheless marks it received
instead of being refused with `Unauthorized`. -/
theorem any_installer_receives_unnamed_dispatch :
    dfManuApproved.map (fun r => (r.status, r.installer_Name)) = [("Approved / Issued", "")] ∧
    lowerStr "installer1" ≠ lowerStr "" ∧
    apply "installer" (.markReceived "installer1" ridManu "20250107070707") dfManuApproved ≠
      .error .unauthorized ∧
    (run "installer" (.markReceived "installer1" ridManu "20250107070707") dfManuApproved).map
      (fun r => r.status) = ["Received"] := by
  decide

/-- Claim C4 witness: installer session "BOB" may receive the record whose
installer name is "Bob"; the identity comparison is case-insensitive. -/
theorem markReceived_identity_gate_witness :
    apply "installer" (.markReceived "BOB" ridSub "20250104040404") dfApproved =
      .ok (dfApproved.map (fun x => if x.request_ID == ridSub then receiveRow "20250104040404" x else x)) :=
  ((((markReceived_identity_gate dfApproved rowApproved "BOB" ridSub "20250104040404"
    (by decide) (by decide) (by decide)).1 (by decide)).1) (by decide)).1

/-- Inversion: a successful `approveOp` is a masked map over the store with
one of the two approval mutations. -/
theorem approveOp_ok {selId : String} {qty : Nat} {cityNotes photoPath ts : String}
    {df s : Store} (h : approveOp selId qty cityNotes photoPath ts df = .ok s) :
    s = df.map (fun x => if x.request_ID == selId then approveRowManu qty cityNotes photoPath ts x else x) ∨
    s = df.map (fun x => if x.request_ID == selId then approveRowContr qty cityNotes photoPath ts x else x) := by
  unfold approveOp at h
  split at h
  · exact Except.noConfusion h
  · split at h
    · exact Or.inl (Except.ok.inj h).symm
    · split at h
      · exact Or.inr (Except.ok.inj h).symm
      · exact Except.noConfusion h

/-- Inversion: a successful `declineOp` is a masked map over the store with
one of the two decline mutations. -/
theorem declineOp_ok {selId reason cityNotes : String} {df s : Store}
    (h : declineOp selId reason cityNotes df = .ok s) :
    s = df.map (fun x => if x.request_ID == selId then declineRowManu reason cityNotes x else x) ∨
    s = df.map (fun x => if x.request_ID == selId then declineRowContr reason x else x) := by
  unfold declineOp at h
  split at h
  · exact Except.noConfusion h
  · split at h
    · exact Or.inl (Except.ok.inj h).symm
    · split at h
      · exact Or.inr (Except.ok.inj h).symm
      · exact Except.noConfusion h

/-- Inversion: a successful `markReceivedOp` is a masked map over the store
with the receive mutation. -/
theorem markReceivedOp_ok {actor selId ts : String} {df s : Store}
    (h : markReceivedOp actor selId ts df = .ok s) :
    s = df.map (fun x => if x.request_ID == selId then receiveRow ts x else x) := by
  simp only [markReceivedOp] at h
  split at h
  · exact Except.noConfusion h
  · split at h
    · exact (Except.ok.inj h).symm
    · split at h <;> exact Except.noConfusion h

/-- Indexwise description of a masked row update. -/
theorem masked_map_index {df s : Store} {selId : String} {g : Row → Row}
    (hs : s = df.map (fun x => if x.request_ID == selId then g x else x)) :
    ∀ (i : Nat) (r : Row), df[i]? = some r →
      (r.request_ID = selId → s[i]? = some (g r)) ∧
      (r.request_ID ≠ selId → s[i]? = some r) := by
  intro i r hi
  subst hs
  rw [List.getElem?_map, hi]
  constructor
  · intro hid
    simp [beq_iff_eq, hid]
  · intro hid
    simp [beq_iff_eq, hid]

/-- Claim C10: each id-keyed transition (`Approve`, `Decline`,
`MarkReceived`) mutates every stored row whose `Request_ID` equals the given
id and leaves every other row untouched; with duplicate ids a single call
changes all carriers. -/
theorem transitions_mutate_every_matching_row (df s : Store) (selId : String) :
    (∀ qty notes photo ts, apply "city" (.approve selId qty notes photo ts) df = .ok s →
      ∀ (i : Nat) (r : Row), df[i]? = some r →
        (r.request_ID = selId → ∃ q, s[i]? = some q ∧ q.request_ID = selId ∧
          q.status = "Approved / Issued" ∧ q.approved_Qty = toString qty) ∧
        (r.request_ID ≠ selId → s[i]? = some r)) ∧
    (∀ reason notes, apply "city" (.decline selId reason notes) df = .ok s →
      ∀ (i : Nat) (r : Row), df[i]? = some r →
        (r.request_ID = selId → ∃ q, s[i]? = some q ∧ q.request_ID = selId ∧
          q.status = "Declined") ∧
        (r.request_ID ≠ selId → s[i]? = some r)) ∧
    (∀ actor ts, apply "installer" (.markReceived actor selId ts) df = .ok s →
      ∀ (i : Nat) (r : Row), df[i]? = some r →
        (r.request_ID = selId → ∃ q, s[i]? = some q ∧ q.request_ID = selId ∧
          q.status = "Received" ∧ q.date_Received = ts) ∧
        (r.request_ID ≠ selId → s[i]? = some r)) := by
  refine ⟨?_, ?_, ?_⟩
  · intro qty notes photo ts h i r hi
    rw [apply_city_approve] at h
    rcases approveOp_ok h with hs | hs <;>
      [skip; skip] <;>
      · have hidx := masked_map_index hs i r hi
        exact ⟨fun hid => ⟨_, hidx.1 hid, by simp [approveRowManu, approveRowContr, hid], rfl, rfl⟩,
               hidx.2⟩
  · intro reason notes h i r hi
    rw [apply_city_decline] at h
    rcases declineOp_ok h with hs | hs <;>
      · have hidx := masked_map_index hs i r hi
        exact ⟨fun hid => ⟨_, hidx.1 hid, by simp [declineRowManu, declineRowContr, hid], rfl⟩,
               hidx.2⟩
  · intro actor ts h i r hi
    rw [apply_installer_mark] at h
    have hidx := masked_map_index (markReceivedOp_ok h) i r hi
    exact ⟨fun hid => ⟨_, hidx.1 hid, by simp [receiveRow, hid], rfl, rfl⟩, hidx.2⟩

/-- Claim C10 witness: on a store holding two rows with the same id, one
`Decline` call changes both rows. -/
theorem transitions_mutate_every_matching_row_witness :
    (∃ q, dfDupDeclined[0]? = some q ∧ q.request_ID = ridSub ∧ q.status = "Declined") ∧
    (∃ q, dfDupDeclined[1]? = some q ∧ q.request_ID = ridSub ∧ q.status = "Declined") := by
  have h := (transitions_mutate_every_matching_row dfDup dfDupDeclined ridSub).2.1 "dup" ""
    (by decide)
  exact ⟨(h 0 rowSub (by decide)).1 (by decide), (h 1 rowSub (by decide)).1 (by decide)⟩

/-- Claim C3 (amended): once every row carrying an id is "Declined" or
"Received", the three lifecycle transitions — `Approve` and `Decline` by the
city, `MarkReceived` by the installer — are all refused with
`InvalidTransition` and leave the store unchanged.  (Other roles are turned
away with `Unauthorized` by the routing, and the manager edit form can still
set the status to any status currently present in the store — see the
counterexample.) -/
theorem terminal_transitions_rejected (df : Store) (selId : String) (qty : Nat)
    (notes photo ts reason notes2 actor ts2 : String)
    (hterm : ∀ r ∈ df, r.request_ID = selId → r.status = "Declined" ∨ r.status = "Received")
    (hex : ∃ r ∈ df, r.request_ID = selId) :
    (apply "city" (.approve selId qty notes photo ts) df = .error .invalidTransition ∧
     run "city" (.approve selId qty notes photo ts) df = df) ∧
    (apply "city" (.decline selId reason notes2) df = .error .invalidTransition ∧
     run "city" (.decline selId reason notes2) df = df) ∧
    (apply "installer" (.markReceived actor selId ts2) df = .error .invalidTransition ∧
     run "installer" (.markReceived actor selId ts2) df = df) := by
  obtain ⟨r0, hr0df, hr0id⟩ := hex
  obtain ⟨a, ha⟩ : ∃ a, df.find? (fun x => x.request_ID == selId) = some a := by
    apply Option.isSome_iff_exists.mp
    rw [List.find?_isSome]
    exact ⟨r0, hr0df, by simp [beq_iff_eq, hr0id]⟩
  have haid : a.request_ID = selId := by
    have := List.find?_some ha
    simpa [beq_iff_eq] using this
  have hast := hterm a (List.mem_of_find?_eq_some ha) haid
  have hnPCA : ¬ (startsWithStr a.status "Pending City Approval" = true) := by
    rcases hast with h | h <;> rw [h] <;> decide
  have hnPV : ¬ ((a.status == "Pending Verification") = true) := by
    rcases hast with h | h <;> rw [h] <;> decide
  have happrove : apply "city" (.approve selId qty notes photo ts) df = .error .invalidTransition := by
    rw [apply_city_approve]
    simp only [approveOp, ha]
    rw [if_neg hnPCA, if_neg hnPV]
  have hdecline : apply "city" (.decline selId reason notes2) df = .error .invalidTransition := by
    rw [apply_city_decline]
    simp only [declineOp, ha]
    rw [if_neg hnPCA, if_neg hnPV]
  have hmem0 : r0 ∈ df.filter (fun x => x.request_ID == selId) :=
    List.mem_filter.mpr ⟨hr0df, by simp [beq_iff_eq, hr0id]⟩
  have hne_empty : ¬ ((df.filter (fun x => x.request_ID == selId)).isEmpty = true) := by
    intro hemp
    rw [List.isEmpty_iff] at hemp
    rw [hemp] at hmem0
    exact List.not_mem_nil r0 hmem0
  have hstatus_false : ∀ x ∈ df.filter (fun x => x.request_ID == selId),
      containsSub x.status "Approved" = false := by
    intro x hx
    obtain ⟨hxdf, hxid⟩ := List.mem_filter.mp hx
    have hxid' : x.request_ID = selId := by simpa [beq_iff_eq] using hxid
    rcases hterm x hxdf hxid' with h | h <;> rw [h] <;> decide
  have hany1 : (df.filter (fun x => x.request_ID == selId)).any
      (fun r => containsSub r.status "Approved" &&
        (!(df.any (fun x => !(x.installer_Name == ""))) ||
          (!(r.installer_Name == "") && (lowerStr r.installer_Name == lowerStr (trimStr actor))))) = false := by
    rw [List.any_eq_false]
    intro x hx
    simp [hstatus_false x hx]
  have hany2 : (df.filter (fun x => x.request_ID == selId)).any
      (fun r => containsSub r.status "Approved") = false := by
    rw [List.any_eq_false]
    intro x hx
    simp [hstatus_false x hx]
  have hmark : apply "installer" (.markReceived actor selId ts2) df = .error .invalidTransition := by
    rw [apply_installer_mark]
    simp only [markReceivedOp]
    rw [if_neg hne_empty, if_neg (by simp [hany1]), if_neg (by simp [hany2])]
  exact ⟨⟨happrove, run_of_error _ _ _ _ happrove⟩,
         ⟨hdecline, run_of_error _ _ _ _ hdecline⟩,
         ⟨hmark, run_of_error _ _ _ _ hmark⟩⟩

/-- Claim C3 counterexample: the meter record leaves status
"Pending Verification" when declined, and — because the keypad record of the
same submission still carries "Pending Verification", so the manager Status
selectbox offers it — the manager edit moves the declined record back to
"Pending Verification": a record does re-enter a status it had left.
Moreover a transition attempt by a non-city actor on the declined record is
refused with `Unauthorized`, not `InvalidTransition`. -/
theorem declined_record_reenters_left_status :
    dfTwo.map (fun r => r.status) = ["Pending Verification", "Pending Verification"] ∧
    dfTwoDeclined.map (fun r => r.status) = ["Declined", "Pending Verification"] ∧
    ((statusOptions dfTwoDeclined).contains "Pending Verification") = true ∧
    dfTwoReopened.map (fun r => r.status) = ["Pending Verification", "Pending Verification"] ∧
    apply "contractor" (.approve ridSub 1 "" "" tsSub) dfTwoDeclined = .error .unauthorized := by
  decide

/-- Claim C3 witness: the amended theorem applied to the concrete declined
store. -/
theorem terminal_transitions_rejected_witness :
    apply "city" (.approve ridSub 5 "" "" "20250105050505") dfDeclined = .error .invalidTransition ∧
    apply "city" (.decline ridSub "again" "") dfDeclined = .error .invalidTransition ∧
    apply "installer" (.markReceived "Bob" ridSub "20250105050505") dfDeclined = .error .invalidTransition := by
  have h := terminal_transitions_rejected dfDeclined ridSub 5 "" "" "20250105050505" "again" "" "Bob" "20250105050505"
    (by decide) (by decide)
  exact ⟨h.1.1, h.2.1.1, h.2.2.1⟩

theorem storeIds_append (df es : Store) : storeIds (df ++ es) = storeIds df ++ storeIds es :=
  List.map_append _ _ _

theorem storeIds_map_of_preserve {f : Row → Row}
    (hf : ∀ x, (f x).request_ID = x.request_ID) (df : Store) :
    storeIds (df.map f) = storeIds df := by
  induction df with
  | nil => rfl
  | cons r rest ih =>
    simp only [storeIds, List.map_cons] at ih ⊢
    rw [hf r, ih]

theorem storeIds_editFirst {p : Row → Bool} {f : Row → Row}
    (hf : ∀ x, (f x).request_ID = x.request_ID) :
    ∀ df : Store, storeIds (editFirst p f df) = storeIds df := by
  intro df
  induction df with
  | nil => rfl
  | cons r rest ih =>
    unfold editFirst
    by_cases hp : p r = true
    · rw [if_pos hp]
      simp only [storeIds, List.map_cons]
      rw [hf r]
    · rw [if_neg hp]
      simp only [storeIds, List.map_cons] at ih ⊢
      rw [ih]

theorem masked_preserve (selId : String) (g : Row → Row)
    (hg : ∀ x, (g x).request_ID = x.request_ID) :
    ∀ x : Row, (if x.request_ID == selId then g x else x).request_ID = x.request_ID := by
  intro x
  by_cases h : (x.request_ID == selId) = true
  · rw [if_pos h]
    exact hg x
  · rw [if_neg h]

theorem managerRowEdit_id (na nb nc nd ne nf ng nh ni nj nk nl ts : String) (r : Row) :
    (managerRowEdit na nb nc nd ne nf ng nh ni nj nk nl ts r).request_ID = r.request_ID := by
  simp only [managerRowEdit]
  split <;> rfl

/-- The ids held by the store after one attempted operation: the old ids
followed by the ids the operation appended (empty for refusals and for
non-submission operations). -/
theorem run_storeIds (role : String) (op : Op) (df : Store) :
    storeIds (run role op df) = storeIds df ++ idsOf role op := by
  cases op with
  | submitContr cn inn mq kq notes ts =>
    simp only [run, apply, idsOf]
    by_cases hr : (role == "contractor") = true
    · rw [if_pos hr, if_pos hr]
      unfold submitContractor
      by_cases h1 : (inn == "") = true
      · rw [if_pos h1, if_pos h1]
        simp
      · rw [if_neg h1, if_neg h1]
        by_cases h2 : (mq == 0 && kq == 0) = true
        · rw [if_pos h2, if_pos h2]
          simp
        · rw [if_neg h2, if_neg h2]
          show storeIds (df ++ _) = _
          rw [storeIds_append]
          congr 1
          by_cases hm : 0 < mq <;> by_cases hk : 0 < kq <;>
            simp [storeIds, List.filterMap_cons, hm, hk, contractorEntry]
    · rw [if_neg hr, if_neg hr]
      simp
  | submitManu mn mq kq batch dd dn doc ts =>
    simp only [run, apply, idsOf]
    by_cases hr : (role == "manufacturer") = true
    · rw [if_pos hr, if_pos hr]
      unfold submitManufacturer
      by_cases h1 : (trimStr batch == "") = true
      · rw [if_pos h1, if_pos h1]
        simp
      · rw [if_neg h1, if_neg h1]
        by_cases h2 : (mq == 0 && kq == 0) = true
        · rw [if_pos h2, if_pos h2]
          simp
        · rw [if_neg h2, if_neg h2]
          show storeIds (df ++ _) = _
          rw [storeIds_append]
          congr 1
          by_cases hm : 0 < mq <;> by_cases hk : 0 < kq <;>
            simp [storeIds, List.filterMap_cons, hm, hk, manufacturerEntry]
    · rw [if_neg hr, if_neg hr]
      simp
  | approve selId qty notes photo ts =>
    simp only [run, apply, idsOf]
    rw [List.append_nil]
    by_cases hr : (role == "city") = true
    · rw [if_pos hr]
      cases happ : approveOp selId qty notes photo ts df with
      | error e => rfl
      | ok s =>
        show storeIds s = storeIds df
        rcases approveOp_ok happ with hs | hs <;> subst hs
        · exact storeIds_map_of_preserve
            (masked_preserve selId (approveRowManu qty notes photo ts) (fun x => rfl)) df
        · exact storeIds_map_of_preserve
            (masked_preserve selId (approveRowContr qty notes photo ts) (fun x => rfl)) df
    · rw [if_neg hr]
  | decline selId reason notes =>
    simp only [run, apply, idsOf]
    rw [List.append_nil]
    by_cases hr : (role == "city") = true
    · rw [if_pos hr]
      cases happ : declineOp selId reason notes df with
      | error e => rfl
      | ok s =>
        show storeIds s = storeIds df
        rcases declineOp_ok happ with hs | hs <;> subst hs
        · exact storeIds_map_of_preserve
            (masked_preserve selId (declineRowManu reason notes) (fun x => rfl)) df
        · exact storeIds_map_of_preserve
            (masked_preserve selId (declineRowContr reason) (fun x => rfl)) df
    · rw [if_neg hr]
  | markReceived actor selId ts =>
    simp only [run, apply, idsOf]
    rw [List.append_nil]
    by_cases hr : (role == "installer") = true
    · rw [if_pos hr]
      cases happ : markReceivedOp actor selId ts df with
      | error e => rfl
      | ok s =>
        show storeIds s = storeIds df
        rw [markReceivedOp_ok happ]
        exact storeIds_map_of_preserve
          (masked_preserve selId (receiveRow ts) (fun x => rfl)) df
    · rw [if_neg hr]
  | managerEdit selId na nb nc nd ne nf ng nh ni nj nk nl ts =>
    simp only [run, apply, idsOf]
    rw [List.append_nil]
    by_cases hr : (role == "manager") = true
    · rw [if_pos hr]
      unfold managerEditOp
      by_cases hopt : ((statusOptions df).contains nf) = true
      · rw [if_pos hopt]
        by_cases hany : (df.any (fun r => r.request_ID == selId)) = true
        · rw [if_pos hany]
          show storeIds (editFirst _ _ df) = storeIds df
          exact storeIds_editFirst (managerRowEdit_id na nb nc nd ne nf ng nh ni nj nk nl ts) df
        · rw [if_neg hany]
      · rw [if_neg hopt]
    · rw [if_neg hr]

theorem runOps_storeIds : ∀ (l : List (String × Op)) (df : Store),
    storeIds (runOps l df) = storeIds df ++ allIds l := by
  intro l
  induction l with
  | nil =>
    intro df
    simp [runOps, allIds]
  | cons p rest ih =>
    intro df
    simp only [runOps, allIds]
    rw [ih, run_storeIds, List.append_assoc]

theorem mkRid_data (pre ts item : String) :
    (mkRid pre ts item).data = pre.data ++ '-' :: (ts.data ++ '-' :: (ridSuffix item).data) := by
  have hd : ("-" : String).data = ['-'] := rfl
  simp [mkRid, String.data_append, hd, List.append_assoc]

theorem mkRid_length (pre ts item : String) :
    (mkRid pre ts item).length = pre.length + 1 + ts.length + 1 + (ridSuffix item).length := by
  have hl : ("-" : String).length = 1 := rfl
  simp only [mkRid, String.length_append, hl]

theorem mkRid_item_ne (pre ts : String) :
    mkRid pre ts "DN15 Meter" ≠ mkRid pre ts "CIU Keypad" := by
  intro h
  have hd := congrArg String.data h
  rw [mkRid_data, mkRid_data] at hd
  have h1 := List.append_cancel_left hd
  injection h1 with _ h2
  have h3 := List.append_cancel_left h2
  injection h3 with _ h4
  exact absurd h4 (by decide)

theorem mkRid_inj_samePre {pre t1 t2 i1 i2 : String}
    (hi1 : i1 = "DN15 Meter" ∨ i1 = "CIU Keypad") (hi2 : i2 = "DN15 Meter" ∨ i2 = "CIU Keypad")
    (ht : t1.length = t2.length)
    (h : mkRid pre t1 i1 = mkRid pre t2 i2) : t1 = t2 ∧ i1 = i2 := by
  have hd := congrArg String.data h
  rw [mkRid_data, mkRid_data] at hd
  have h1 := List.append_cancel_left hd
  injection h1 with _ h2
  have hlen : t1.data.length = t2.data.length := ht
  obtain ⟨hteq, hrest⟩ := List.append_inj h2 hlen
  refine ⟨String.ext hteq, ?_⟩
  injection hrest with _ h3
  rcases hi1 with rfl | rfl <;> rcases hi2 with rfl | rfl
  · rfl
  · exact absurd h3 (by decide)
  · exact absurd h3 (by decide)
  · rfl

theorem mkRid_inj {p1 p2 t1 t2 i1 i2 : String}
    (hp1 : p1 = "REQ" ∨ p1 = "MANU") (hp2 : p2 = "REQ" ∨ p2 = "MANU")
    (hi1 : i1 = "DN15 Meter" ∨ i1 = "CIU Keypad") (hi2 : i2 = "DN15 Meter" ∨ i2 = "CIU Keypad")
    (ht1 : t1.length = 14) (ht2 : t2.length = 14)
    (h : mkRid p1 t1 i1 = mkRid p2 t2 i2) : t1 = t2 := by
  have hs1 : (ridSuffix i1).length = 10 := by
    rcases hi1 with rfl | rfl <;> decide
  have hs2 : (ridSuffix i2).length = 10 := by
    rcases hi2 with rfl | rfl <;> decide
  have e1 : ("REQ" : String).length = 3 := rfl
  have e2 : ("MANU" : String).length = 4 := rfl
  rcases hp1 with rfl | rfl <;> rcases hp2 with rfl | rfl
  · exact (mkRid_inj_samePre hi1 hi2 (by rw [ht1, ht2]) h).1
  · exfalso
    have hlen := congrArg String.length h
    rw [mkRid_length, mkRid_length, ht1, ht2, hs1, hs2, e1, e2] at hlen
    omega
  · exfalso
    have hlen := congrArg String.length h
    rw [mkRid_length, mkRid_length, ht1, ht2, hs1, hs2, e1, e2] at hlen
    omega
  · exact (mkRid_inj_samePre hi1 hi2 (by rw [ht1, ht2]) h).1

theorem idsOf_nodup (role : String) (op : Op) : (idsOf role op).Nodup := by
  cases op with
  | submitContr cn inn mq kq notes ts =>
    simp only [idsOf]
    by_cases hr : (role == "contractor") = true
    · rw [if_pos hr]
      by_cases h1 : (inn == "") = true
      · rw [if_pos h1]
        exact List.nodup_nil
      · rw [if_neg h1]
        by_cases h2 : (mq == 0 && kq == 0) = true
        · rw [if_pos h2]
          exact List.nodup_nil
        · rw [if_neg h2]
          by_cases hm : 0 < mq <;> by_cases hk : 0 < kq <;>
            simp [List.filterMap_cons, hm, hk, mkRid_item_ne "REQ" ts]
    · rw [if_neg hr]
      exact List.nodup_nil
  | submitManu mn mq kq batch dd dn doc ts =>
    simp only [idsOf]
    by_cases hr : (role == "manufacturer") = true
    · rw [if_pos hr]
      by_cases h1 : (trimStr batch == "") = true
      · rw [if_pos h1]
        exact List.nodup_nil
      · rw [if_neg h1]
        by_cases h2 : (mq == 0 && kq == 0) = true
        · rw [if_pos h2]
          exact List.nodup_nil
        · rw [if_neg h2]
          by_cases hm : 0 < mq <;> by_cases hk : 0 < kq <;>
            simp [List.filterMap_cons, hm, hk, mkRid_item_ne "MANU" ts]
    · rw [if_neg hr]
      exact List.nodup_nil
  | approve selId qty notes photo ts => exact List.nodup_nil
  | decline selId reason notes => exact List.nodup_nil
  | markReceived actor selId ts => exact List.nodup_nil
  | managerEdit selId na nb nc nd ne nf ng nh ni nj nk nl ts => exact List.nodup_nil

theorem mem_idsOf {role : String} {op : Op} {rid : String} (h : rid ∈ idsOf role op) :
    ∃ ts, subTs op = some ts ∧ ∃ pre item, (pre = "REQ" ∨ pre = "MANU") ∧
      (item = "DN15 Meter" ∨ item = "CIU Keypad") ∧ rid = mkRid pre ts item := by
  cases op with
  | submitContr cn inn mq kq notes ts =>
    refine ⟨ts, rfl, ?_⟩
    simp only [idsOf] at h
    by_cases hr : (role == "contractor") = true
    · rw [if_pos hr] at h
      by_cases h1 : (inn == "") = true
      · rw [if_pos h1] at h
        exact absurd h (List.not_mem_nil _)
      · rw [if_neg h1] at h
        by_cases h2 : (mq == 0 && kq == 0) = true
        · rw [if_pos h2] at h
          exact absurd h (List.not_mem_nil _)
        · rw [if_neg h2] at h
          rw [List.mem_filterMap] at h
          obtain ⟨p, hp, hpe⟩ := h
          split at hpe
          · have hv := Option.some.inj hpe
            simp only [List.mem_cons, List.not_mem_nil, or_false] at hp
            rcases hp with rfl | rfl
            · exact ⟨"REQ", "DN15 Meter", Or.inl rfl, Or.inl rfl, hv.symm⟩
            · exact ⟨"REQ", "CIU Keypad", Or.inl rfl, Or.inr rfl, hv.symm⟩
          · exact Option.noConfusion hpe
    · rw [if_neg hr] at h
      exact absurd h (List.not_mem_nil _)
  | submitManu mn mq kq batch dd dn doc ts =>
    refine ⟨ts, rfl, ?_⟩
    simp only [idsOf] at h
    by_cases hr : (role == "manufacturer") = true
    · rw [if_pos hr] at h
      by_cases h1 : (trimStr batch == "") = true
      · rw [if_pos h1] at h
        exact absurd h (List.not_mem_nil _)
      · rw [if_neg h1] at h
        by_cases h2 : (mq == 0 && kq == 0) = true
        · rw [if_pos h2] at h
          exact absurd h (List.not_mem_nil _)
        · rw [if_neg h2] at h
          rw [List.mem_filterMap] at h
          obtain ⟨p, hp, hpe⟩ := h
          split at hpe
          · have hv := Option.some.inj hpe
            simp only [List.mem_cons, List.not_mem_nil, or_false] at hp
            rcases hp with rfl | rfl
            · exact ⟨"MANU", "DN15 Meter", Or.inr rfl, Or.inl rfl, hv.symm⟩
            · exact ⟨"MANU", "CIU Keypad", Or.inr rfl, Or.inr rfl, hv.symm⟩
          · exact Option.noConfusion hpe
    · rw [if_neg hr] at h
      exact absurd h (List.not_mem_nil _)
  | approve selId qty notes photo ts => exact absurd h (List.not_mem_nil _)
  | decline selId reason notes => exact absurd h (List.not_mem_nil _)
  | markReceived actor selId ts => exact absurd h (List.not_mem_nil _)
  | managerEdit selId na nb nc nd ne nf ng nh ni nj nk nl ts => exact absurd h (List.not_mem_nil _)

theorem mem_allIds {l : List (String × Op)} {rid : String} (h : rid ∈ allIds l) :
    ∃ p ∈ l, rid ∈ idsOf p.1 p.2 := by
  induction l with
  | nil => exact absurd h (List.not_mem_nil _)
  | cons q rest ih =>
    simp only [allIds, List.mem_append] at h
    rcases h with h | h
    · exact ⟨q, List.mem_cons_self _ _, h⟩
    · obtain ⟨p, hp, hid⟩ := ih h
      exact ⟨p, List.mem_cons_of_mem _ hp, hid⟩

theorem allIds_nodup : ∀ l : List (String × Op),
    (∀ t ∈ l.filterMap (fun p => subTs p.2), t.length = 14) →
    (l.filterMap (fun p => subTs p.2)).Nodup →
    (allIds l).Nodup := by
  intro l
  induction l with
  | nil =>
    intro _ _
    exact List.nodup_nil
  | cons q rest ih =>
    intro hlen hnodup
    simp only [allIds]
    rw [List.nodup_append]
    have hlen' : ∀ t ∈ rest.filterMap (fun p => subTs p.2), t.length = 14 := by
      intro t ht
      apply hlen
      simp only [List.filterMap_cons]
      cases hsub : subTs q.2 with
      | none => exact ht
      | some b => exact List.mem_cons_of_mem _ ht
    have hnodup' : (rest.filterMap (fun p => subTs p.2)).Nodup := by
      revert hnodup
      simp only [List.filterMap_cons]
      cases hsub : subTs q.2 with
      | none => exact id
      | some b => exact List.Nodup.of_cons
    refine ⟨idsOf_nodup q.1 q.2, ih hlen' hnodup', ?_⟩
    intro rid hid1 hid2
    obtain ⟨t1, hsub1, pre1, it1, hpre1, hit1, heq1⟩ := mem_idsOf hid1
    obtain ⟨p, hp, hidp⟩ := mem_allIds hid2
    obtain ⟨t2, hsub2, pre2, it2, hpre2, hit2, heq2⟩ := mem_idsOf hidp
    have ht1mem : t1 ∈ (q :: rest).filterMap (fun p => subTs p.2) :=
      List.mem_filterMap.mpr ⟨q, List.mem_cons_self _ _, hsub1⟩
    have ht2mem : t2 ∈ rest.filterMap (fun p => subTs p.2) :=
      List.mem_filterMap.mpr ⟨p, hp, hsub2⟩
    have hl1 : t1.length = 14 := hlen t1 ht1mem
    have hl2 : t2.length = 14 :=
      hlen t2 (List.mem_filterMap.mpr ⟨p, List.mem_cons_of_mem _ hp, hsub2⟩)
    have heq : mkRid pre1 t1 it1 = mkRid pre2 t2 it2 := by
      rw [← heq1, ← heq2]
    have ht12 : t1 = t2 := mkRid_inj hpre1 hpre2 hit1 hit2 hl1 hl2 heq
    revert hnodup
    simp only [List.filterMap_cons, hsub1]
    intro hn
    exact (List.nodup_cons.mp hn).1 (ht12 ▸ ht2mem)

/-- Claim C5 (amended): request ids are unique at every state reachable by a
sequence of attempted operations from the empty store, PROVIDED no two
submissions carry the same second-resolution timestamp (each formatted
timestamp has the fixed 14-digit length `%Y%m%d%H%M%S` produces).  The code
has no duplicate-id rejection; timestamp distinctness is its only guard. -/
theorem submission_ids_unique (l : List (String × Op))
    (hlen : ∀ t ∈ l.filterMap (fun p => subTs p.2), t.length = 14)
    (hnodup : (l.filterMap (fun p => subTs p.2)).Nodup) :
    (storeIds (runOps l [])).Nodup := by
  rw [runOps_storeIds]
  exact allIds_nodup l hlen hnodup

/-- Claim C5 counterexample: two contractor submissions in the same second
produce two live records with the same request id. -/
theorem same_second_submissions_collide :
    storeIds dfDup = [ridSub, ridSub] ∧ ¬ (storeIds dfDup).Nodup := by
  decide

/-- Claim C5 witness: the amended theorem applied to three submissions with
distinct timestamps. -/
theorem submission_ids_unique_witness :
    (storeIds (runOps opsDistinct [])).Nodup :=
  submission_ids_unique opsDistinct (by decide) (by decide)

end StockApp
